import Mathlib

/-!
Verification of the TeamCity client core
(`vendor/github.com/cvbarros/go-teamcity-sdk/pkg/teamcity/teamcity.go`).

The file shallowly embeds the Go source: constructors (`New`,
`NewWithAddress`, `newClientInstance`), the identifier-scoped service
factories, `Validate`, the tracing hooks installed by `init`, `debug`,
and `textPlainBodyProvider`.  Collaborators that live outside this file
of the repository (the `sling` request-template library, `LocatorID`,
and the per-resource service constructors) are modelled from the spec,
each marked `Modelled from the spec:` in its doc comment.
-/

namespace Teamcity

/-- Modelled from the spec: the `sling` Request Template — a cloneable
bundle of base URL, HTTP Basic auth credentials, key-unique default
headers, and an HTTP method.  The `sling` library itself is not under
`src/`; the spec describes it as {base URL, auth credentials, default
headers (map, key-unique)} with a deep-copying clone. -/
structure Sling where
  rawURL : String
  method : String
  basicAuth : Option (String × String)
  header : List (String × String)
deriving DecidableEq, Repr

/-- Modelled from the spec: `sling.New()`, the package-level constructor
producing an empty template. -/
def slingNew : Sling := ⟨"", "", none, []⟩

/-- Modelled from the spec: `(*Sling).Base` sets the base URL. -/
def Sling.base (s : Sling) (b : String) : Sling := { s with rawURL := b }

/-- Modelled from the spec: `(*Sling).SetBasicAuth` records the HTTP
Basic Authentication credentials. -/
def Sling.setBasicAuth (s : Sling) (u p : String) : Sling :=
  { s with basicAuth := some (u, p) }

/-- Modelled from the spec: `(*Sling).Set` sets a default header,
keeping the header map key-unique. -/
def Sling.set (s : Sling) (k v : String) : Sling :=
  { s with header := (k, v) :: s.header.filter (fun kv => kv.1 ≠ k) }

/-- Modelled from the spec: `(*Sling).New()` clones the template —
"cloning produces a new independently-owned instance copying all
current state".  In a pure embedding a deep copy is the value itself. -/
def Sling.New (s : Sling) : Sling := s

/-- Modelled from the spec: `(*Sling).Path` "appends it to the clone's
effective path". -/
def Sling.path (s : Sling) (p : String) : Sling :=
  { s with rawURL := s.rawURL ++ p }

/-- Modelled from the spec: `(*Sling).Get` narrows the path and selects
the GET verb. -/
def Sling.get (s : Sling) (p : String) : Sling :=
  { s.path p with method := "GET" }

/-- Lookup of a default header by key. -/
def headerGet (hs : List (String × String)) (k : String) : Option String :=
  (hs.find? (fun kv => kv.1 == k)).map (fun kv => kv.2)

/-- Opaque handle for the caller-supplied `*http.Client` transport. -/
structure HTTPClient where
  transportId : Nat
deriving DecidableEq, Repr

/-- Error taxonomy.  The Go code returns untyped `fmt.Errorf` values;
the constructors here follow the spec's §7 classification
(`ConfigurationError`, `TransportError`, `APIError`, surfaced
body-read failures), each carrying the source's message. -/
inductive TCError where
  | configurationError (msg : String)
  | transportError (msg : String)
  | apiError (msg : String)
  | bodyReadError (msg : String)
deriving DecidableEq, Repr

/-- Modelled from the spec: `ProjectService` (constructor
`newProjectService` is outside `src/`) — a service consumes only
{cloned template, transport}. -/
structure ProjectService where
  base : Sling
  httpClient : HTTPClient
deriving DecidableEq, Repr

/-- Modelled from the spec: `BuildTypeService`. -/
structure BuildTypeService where
  base : Sling
  httpClient : HTTPClient
deriving DecidableEq, Repr

/-- Modelled from the spec: `ServerService` (its constructor takes only
the cloned template). -/
structure ServerService where
  base : Sling
deriving DecidableEq, Repr

/-- Modelled from the spec: `VcsRootService`. -/
structure VcsRootService where
  base : Sling
  httpClient : HTTPClient
deriving DecidableEq, Repr

/-- Modelled from the spec: `ParameterService` — holds a cloned
template scoped to a parent project or build configuration. -/
structure ParameterService where
  base : Sling
deriving DecidableEq, Repr

/-- Modelled from the spec: `AgentRequirementService`, identifier
scoped. -/
structure AgentRequirementService where
  id : String
  httpClient : HTTPClient
  base : Sling
deriving DecidableEq, Repr

/-- Modelled from the spec: `BuildFeatureService`, identifier scoped. -/
structure BuildFeatureService where
  id : String
  httpClient : HTTPClient
  base : Sling
deriving DecidableEq, Repr

/-- Modelled from the spec: `DependencyService`, identifier scoped. -/
structure DependencyService where
  id : String
  httpClient : HTTPClient
  base : Sling
deriving DecidableEq, Repr

/-- Modelled from the spec: `TriggerService`, identifier scoped. -/
structure TriggerService where
  buildTypeID : String
  httpClient : HTTPClient
  base : Sling
deriving DecidableEq, Repr

/-- Modelled from the spec: `newProjectService`. -/
def newProjectService (b : Sling) (h : HTTPClient) : ProjectService := ⟨b, h⟩

/-- Modelled from the spec: `newBuildTypeService`. -/
def newBuildTypeService (b : Sling) (h : HTTPClient) : BuildTypeService := ⟨b, h⟩

/-- Modelled from the spec: `newServerService`. -/
def newServerService (b : Sling) : ServerService := ⟨b⟩

/-- Modelled from the spec: `newVcsRootService`. -/
def newVcsRootService (b : Sling) (h : HTTPClient) : VcsRootService := ⟨b, h⟩

/-- Modelled from the spec: `newAgentRequirementService`. -/
def newAgentRequirementService (id : String) (h : HTTPClient) (b : Sling) :
    AgentRequirementService := ⟨id, h, b⟩

/-- Modelled from the spec: `newBuildFeatureService`. -/
def newBuildFeatureService (id : String) (h : HTTPClient) (b : Sling) :
    BuildFeatureService := ⟨id, h, b⟩

/-- Modelled from the spec: `NewDependencyService`. -/
def NewDependencyService (id : String) (h : HTTPClient) (b : Sling) :
    DependencyService := ⟨id, h, b⟩

/-- Modelled from the spec: `newTriggerService`. -/
def newTriggerService (buildTypeID : String) (h : HTTPClient) (b : Sling) :
    TriggerService := ⟨buildTypeID, h, b⟩

/-- Modelled from the spec: `LocatorID`, the repository's locator
canonicalization (outside `src/`): an id is wrapped as the locator
token `id:<value>`; the spec requires it injective — "two distinct ids
never collide on the same locator string". -/
def LocatorID (id : String) : String := "id:" ++ id

/-- The `Client` struct of `teamcity.go:41-55`.  Pointer-typed default
service fields are `Option`s (`none` = Go `nil`); `RetryTimeout`
(`time.Duration`) is a `Nat` of nanoseconds. -/
structure Client where
  userName : String
  password : String
  address : String
  baseURI : String
  httpClient : HTTPClient
  RetryTimeout : Nat
  commonBase : Sling
  Projects : Option ProjectService
  BuildTypes : Option BuildTypeService
  Server : Option ServerService
  VcsRoots : Option VcsRootService
  Parameters : Option ParameterService
deriving DecidableEq, Repr

/-- `newClientInstance` (`teamcity.go:75-91`): builds the shared root
template and populates the default services; fields not assigned in the
Go composite literal keep their zero values. -/
def newClientInstance (userName password address : String)
    (httpClient : HTTPClient) : Except TCError Client :=
  let sharedClient :=
    ((slingNew.base (address ++ "/httpAuth/app/rest/")).setBasicAuth
      userName password).set "Accept" "application/json"
  .ok
    { userName := userName
      password := password
      address := address
      baseURI := ""
      httpClient := httpClient
      RetryTimeout := 0
      commonBase := sharedClient
      Projects := some (newProjectService sharedClient.New httpClient)
      BuildTypes := some (newBuildTypeService sharedClient.New httpClient)
      Server := some (newServerService sharedClient.New)
      VcsRoots := some (newVcsRootService sharedClient.New httpClient)
      Parameters := none }

/-- `New` (`teamcity.go:58-65`): reads the server address from the
`TEAMCITY_ADDR` environment variable; `env` models `os.Getenv`, which
returns `""` for an unset variable. -/
def New (userName password : String) (httpClient : HTTPClient)
    (env : String → String) : Except TCError Client :=
  let address := env "TEAMCITY_ADDR"
  if address = "" then
    .error (.configurationError
      "TEAMCITY_ADDR environment variable not set, specify address explicit by setting the variable or using NewWithAddress constructor")
  else
    newClientInstance userName password address httpClient

/-- `NewWithAddress` (`teamcity.go:68-73`). -/
def NewWithAddress (userName password address : String)
    (httpClient : HTTPClient) : Except TCError Client :=
  if address = "" then
    .error (.configurationError "address is required")
  else
    newClientInstance userName password address httpClient

/-- `(*Client).AgentRequirementService` (`teamcity.go:94-96`). -/
def Client.AgentRequirementService (c : Client) (id : String) :
    AgentRequirementService :=
  newAgentRequirementService id c.httpClient c.commonBase.New

/-- `(*Client).BuildFeatureService` (`teamcity.go:99-101`). -/
def Client.BuildFeatureService (c : Client) (id : String) :
    BuildFeatureService :=
  newBuildFeatureService id c.httpClient c.commonBase.New

/-- `(*Client).ProjectParameterService` (`teamcity.go:104-108`). -/
def Client.ProjectParameterService (c : Client) (id : String) :
    ParameterService :=
  ⟨(c.commonBase.New).path ("projects/" ++ LocatorID id ++ "/")⟩

/-- `(*Client).BuildTypeParameterService` (`teamcity.go:111-115`). -/
def Client.BuildTypeParameterService (c : Client) (id : String) :
    ParameterService :=
  ⟨(c.commonBase.New).path ("buildTypes/" ++ LocatorID id ++ "/")⟩

/-- `(*Client).DependencyService` (`teamcity.go:118-120`). -/
def Client.DependencyService (c : Client) (id : String) :
    DependencyService :=
  NewDependencyService id c.httpClient c.commonBase.New

/-- `(*Client).TriggerService` (`teamcity.go:123-125`). -/
def Client.TriggerService (c : Client) (buildTypeID : String) :
    TriggerService :=
  newTriggerService buildTypeID c.httpClient c.commonBase.New

/-- An `*http.Response` as `Validate` consumes it: numeric status code,
textual status line, and the result of `ioutil.ReadAll(response.Body)`
(which may itself fail). -/
structure HTTPResponse where
  statusCode : Nat
  status : String
  body : Except String String
deriving Repr

/-- The request `Validate` issues: `c.commonBase.Get("server")`
(`teamcity.go:129`). -/
def Client.validateRequest (c : Client) : Sling := c.commonBase.get "server"

/-- `(*Client).Validate` (`teamcity.go:128-144`).  The network exchange
performed by `ReceiveSuccess` is an input: either a transport-level
error or a received response. -/
def Client.Validate (_ : Client) (exchange : Except String HTTPResponse) :
    Bool × Option TCError :=
  match exchange with
  | .error e => (false, some (.transportError e))
  | .ok response =>
    if response.statusCode ≠ 200 ∧ response.statusCode ≠ 403 then
      match response.body with
      | .error e => (false, some (.bodyReadError e))
      | .ok body =>
        (false, some (.apiError ("API error " ++ response.status ++ ": " ++ body)))
    else
      (true, none)

/-- Output records for the diagnostic sink: `fmt.Printf` to standard
output and `log.Printf` at warning level. -/
inductive SinkOutput where
  | stdout (data : String)
  | warnLog (msg : String)
deriving DecidableEq, Repr

/-- `DebugRequests` (`teamcity.go:22`): the initial value of the
package-level request-trace flag. -/
def DebugRequests : Bool := false

/-- `DebugResponses` (`teamcity.go:25`): the initial value of the
package-level response-trace flag. -/
def DebugResponses : Bool := false

/-- `debug` (`teamcity.go:158-164`): a successful dump is printed to
standard output, a failed dump is reported at warning level; nothing is
returned to the caller. -/
def debug (dump : Except String String) : List SinkOutput :=
  match dump with
  | .ok data => [.stdout (data ++ "\n\n")]
  | .error e => [.warnLog ("[ERROR] " ++ e ++ "\n\n")]

/-- The `LogRequest` hook installed by `init` (`teamcity.go:28-32`):
dump the request only when the request-trace flag is on.  The flag is
read at request time, so it is a parameter. -/
def logRequestHook (debugRequests : Bool)
    (dumpRequest : Except String String) : List SinkOutput :=
  if debugRequests then debug dumpRequest else []

/-- The `LogResponse` hook installed by `init` (`teamcity.go:33-37`). -/
def logResponseHook (debugResponses : Bool)
    (dumpResponse : Except String String) : List SinkOutput :=
  if debugResponses then debug dumpResponse else []

/-- One traced call: the sink output produced for the request and for
the response of a single round trip, given the current flag values and
the serializer results (`httputil.DumpRequest` / `DumpResponse`). -/
def traceRoundTrip (debugRequests debugResponses : Bool)
    (dumpRequest dumpResponse : Except String String) :
    List SinkOutput × List SinkOutput :=
  (logRequestHook debugRequests dumpRequest,
   logResponseHook debugResponses dumpResponse)

/-- A round trip through the tracing transport: the hooks observe the
request and response; the response delivered to the caller is whatever
the underlying transport produced, and the hooks contribute only sink
output. -/
def tracedRoundTrip (debugRequests debugResponses : Bool)
    (dumpReq : String → Except String String)
    (dumpResp : String → Except String String)
    (transport : String → String) (request : String) :
    String × List SinkOutput :=
  let reqOut := logRequestHook debugRequests (dumpReq request)
  let response := transport request
  let respOut := logResponseHook debugResponses (dumpResp response)
  (response, reqOut ++ respOut)

/-- A Go `interface{}` payload value, as far as `textPlainBodyProvider`
can observe it: either a string or some non-string value. -/
inductive GoValue where
  | str (s : String)
  | intVal (n : Int)
  | nilVal
deriving DecidableEq, Repr

/-- `textPlainBodyProvider` (`teamcity.go:146-148`). -/
structure textPlainBodyProvider where
  payload : GoValue
deriving DecidableEq, Repr

/-- `(textPlainBodyProvider).ContentType` (`teamcity.go:150-152`). -/
def textPlainBodyProvider.ContentType (_ : textPlainBodyProvider) : String :=
  "text/plain; charset=utf-8"

/-- `(textPlainBodyProvider).Body` (`teamcity.go:154-156`): the reader
contents paired with the returned error.  The unchecked type assertion
`p.payload.(string)` panics on a non-string payload, modelled as
`none`. -/
def textPlainBodyProvider.Body (p : textPlainBodyProvider) :
    Option (String × Option String) :=
  match p.payload with
  | .str s => some (s, none)
  | _ => none

/-- `sub` occurs as a contiguous substring of `s`. -/
def ContainsStr (s sub : String) : Prop :=
  ∃ pre post, s = pre ++ (sub ++ post)

/-- A concrete client value used to instantiate witnesses: the result of
constructing against `http://localhost:8112` with credentials
`("u", "p")`, default services omitted where a witness does not need
them. -/
def testClient : Client :=
  { userName := "u"
    password := "p"
    address := "http://localhost:8112"
    baseURI := ""
    httpClient := ⟨0⟩
    RetryTimeout := 0
    commonBase :=
      ((slingNew.base ("http://localhost:8112" ++ "/httpAuth/app/rest/")).setBasicAuth
        "u" "p").set "Accept" "application/json"
    Projects := none
    BuildTypes := none
    Server := none
    VcsRoots := none
    Parameters := none }

theorem string_append_left_cancel {a x y : String} (h : a ++ x = a ++ y) :
    x = y := by
  apply String.ext
  have h2 := congrArg String.data h
  simp only [String.data_append] at h2
  exact List.append_cancel_left h2

theorem string_append_right_cancel {x y b : String} (h : x ++ b = y ++ b) :
    x = y := by
  apply String.ext
  have h2 := congrArg String.data h
  simp only [String.data_append] at h2
  exact List.append_cancel_right h2

theorem string_append_ne_self {R s : String} (hs : s ≠ "") : R ++ s ≠ R := by
  intro h
  apply hs
  apply String.ext
  have h2 := congrArg String.data h
  simp only [String.data_append] at h2
  have h3 : R.data ++ s.data = R.data ++ [] := by simpa using h2
  simpa using List.append_cancel_left h3

theorem string_append_assoc (a b c : String) :
    (a ++ b) ++ c = a ++ (b ++ c) := by
  apply String.ext
  simp [String.data_append, List.append_assoc]

theorem string_append_empty (s : String) : s ++ "" = s := by
  apply String.ext
  simp [String.data_append]

/-- `LocatorID` is injective, as the spec's collaborator contract
requires. -/
theorem LocatorID_inj {id1 id2 : String} (h : LocatorID id1 = LocatorID id2) :
    id1 = id2 :=
  string_append_left_cancel h

/-- The identifier-scoped parameter path determines the identifier. -/
theorem scoped_path_inj {R pfx id1 id2 : String}
    (h : R ++ (pfx ++ LocatorID id1 ++ "/") =
         R ++ (pfx ++ LocatorID id2 ++ "/")) : id1 = id2 :=
  LocatorID_inj (string_append_left_cancel (string_append_right_cancel
    (string_append_left_cancel h)))

theorem string_append_slash_ne_empty (t : String) : t ++ "/" ≠ "" := by
  intro h
  have h2 := congrArg String.data h
  simp [String.data_append] at h2

/-- C1: Client construction fails with a `ConfigurationError` if and
only if the address is empty.  `New` with the `TEAMCITY_ADDR`
environment variable unset and `NewWithAddress` with an empty address
both return a `configurationError`; for every non-empty address both
entry points return a non-error `Client` with the four default services
populated.  The constructors are pure functions of their inputs, so no
network I/O can occur during construction. -/
theorem construction_error_iff_empty_address
    (userName password address : String) (httpClient : HTTPClient)
    (env : String → String) :
    (env "TEAMCITY_ADDR" = "" →
      ∃ msg, New userName password httpClient env =
        .error (.configurationError msg)) ∧
    (address = "" →
      ∃ msg, NewWithAddress userName password address httpClient =
        .error (.configurationError msg)) ∧
    (address ≠ "" →
      ∃ c, NewWithAddress userName password address httpClient = .ok c ∧
        c.Projects.isSome ∧ c.BuildTypes.isSome ∧ c.Server.isSome ∧
        c.VcsRoots.isSome) ∧
    (env "TEAMCITY_ADDR" ≠ "" →
      ∃ c, New userName password httpClient env = .ok c ∧
        c.Projects.isSome ∧ c.BuildTypes.isSome ∧ c.Server.isSome ∧
        c.VcsRoots.isSome) := by
  refine ⟨fun h => ?_, fun h => ?_, fun h => ?_, fun h => ?_⟩
  · exact ⟨"TEAMCITY_ADDR environment variable not set, specify address explicit by setting the variable or using NewWithAddress constructor",
      by simp [New, h]⟩
  · exact ⟨"address is required", by simp [NewWithAddress, h]⟩
  · simp only [NewWithAddress, if_neg h, newClientInstance]
    exact ⟨_, rfl, rfl, rfl, rfl, rfl⟩
  · simp only [New, if_neg h, newClientInstance]
    exact ⟨_, rfl, rfl, rfl, rfl, rfl⟩

/-- C1 witness: the concrete cases — unset environment variable, empty
explicit address, and a non-empty explicit address. -/
theorem construction_error_iff_empty_address_witness :
    (∃ msg, New "u" "p" ⟨0⟩ (fun _ => "") =
      .error (.configurationError msg)) ∧
    (∃ msg, NewWithAddress "u" "p" "" ⟨0⟩ =
      .error (.configurationError msg)) ∧
    (∃ c, NewWithAddress "u" "p" "http://localhost:8112" ⟨0⟩ = .ok c ∧
      c.Projects.isSome ∧ c.BuildTypes.isSome ∧ c.Server.isSome ∧
      c.VcsRoots.isSome) :=
  ⟨(construction_error_iff_empty_address "u" "p" "" ⟨0⟩ (fun _ => "")).1 rfl,
   (construction_error_iff_empty_address "u" "p" "" ⟨0⟩ (fun _ => "")).2.1 rfl,
   (construction_error_iff_empty_address "u" "p" "http://localhost:8112" ⟨0⟩
     (fun _ => "")).2.2.1 (by decide)⟩

/-- C2: for every response received by `Validate` whose body is
readable, status 200 or 403 yields `(true, nil)`, and any other status
yields `(false, APIError)` whose message contains the HTTP status line
and the raw body text. -/
theorem validate_status_dispatch (c : Client) (r : HTTPResponse)
    (b : String) (hb : r.body = .ok b) :
    ((r.statusCode = 200 ∨ r.statusCode = 403) →
      c.Validate (.ok r) = (true, none)) ∧
    (r.statusCode ≠ 200 → r.statusCode ≠ 403 →
      c.Validate (.ok r) =
        (false, some (.apiError ("API error " ++ r.status ++ ": " ++ b))) ∧
      ContainsStr ("API error " ++ r.status ++ ": " ++ b) r.status ∧
      ContainsStr ("API error " ++ r.status ++ ": " ++ b) b) := by
  constructor
  · intro h
    rcases h with h | h <;> simp [Client.Validate, h]
  · intro h200 h403
    exact ⟨by simp [Client.Validate, h200, h403, hb],
      ⟨"API error ", ": " ++ b, by simp [string_append_assoc]⟩,
      ⟨("API error " ++ r.status) ++ ": ", "", by simp [string_append_empty]⟩⟩

/-- C2 witness: a 500 response with body `"boom"` yields `(false,
APIError)` whose message contains the status line (hence `"500"`) and
`"boom"`. -/
theorem validate_status_dispatch_witness :
    (testClient.Validate
        (.ok ⟨500, "500 Internal Server Error", .ok "boom"⟩) =
      (false, some (.apiError "API error 500 Internal Server Error: boom")) ∧
      ContainsStr "API error 500 Internal Server Error: boom"
        "500 Internal Server Error" ∧
      ContainsStr "API error 500 Internal Server Error: boom" "boom") ∧
    ContainsStr "API error 500 Internal Server Error: boom" "500" := by
  have h := (validate_status_dispatch testClient
    ⟨500, "500 Internal Server Error", .ok "boom"⟩ "boom" rfl).2
    (by decide) (by decide)
  have e : "API error " ++ "500 Internal Server Error" ++ ": " ++ "boom" =
      "API error 500 Internal Server Error: boom" := by decide
  rw [e] at h
  exact ⟨⟨h.1, h.2.1, h.2.2⟩,
    ⟨"API error ", " Internal Server Error: boom", by decide⟩⟩

/-- C3: a transport-level failure makes `Validate` return `ok = false`
together with a `TransportError` carrying the transport's message; no
response exists on this path, so no body is read. -/
theorem validate_transport_error (c : Client) (e : String) :
    c.Validate (.error e) = (false, some (.transportError e)) := rfl

/-- C4: successful construction with address `a`, username `u` and
password `p` builds one root Request Template with base URL
`a ++ "/httpAuth/app/rest/"`, Basic-Auth `(u, p)` and default header
`Accept: application/json`, and each of the four default services
(Projects, BuildTypes, Server, VcsRoots) holds one clone of that root
template. -/
theorem construction_builds_root_template (u p a : String)
    (h : HTTPClient) (ha : a ≠ "") :
    ∃ c, NewWithAddress u p a h = .ok c ∧
      c.commonBase.rawURL = a ++ "/httpAuth/app/rest/" ∧
      c.commonBase.basicAuth = some (u, p) ∧
      headerGet c.commonBase.header "Accept" = some "application/json" ∧
      c.Projects = some (newProjectService c.commonBase.New h) ∧
      c.BuildTypes = some (newBuildTypeService c.commonBase.New h) ∧
      c.Server = some (newServerService c.commonBase.New) ∧
      c.VcsRoots = some (newVcsRootService c.commonBase.New h) := by
  simp only [NewWithAddress, if_neg ha, newClientInstance]
  exact ⟨_, rfl, rfl, rfl, rfl, rfl, rfl, rfl, rfl⟩

/-- C4 witness: the root template and service clones at a concrete
address and credentials. -/
theorem construction_builds_root_template_witness :
    ∃ c, NewWithAddress "u" "p" "http://localhost:8112" ⟨0⟩ = .ok c ∧
      c.commonBase.rawURL = "http://localhost:8112" ++ "/httpAuth/app/rest/" ∧
      c.commonBase.basicAuth = some ("u", "p") ∧
      headerGet c.commonBase.header "Accept" = some "application/json" ∧
      c.Projects = some (newProjectService c.commonBase.New ⟨0⟩) ∧
      c.BuildTypes = some (newBuildTypeService c.commonBase.New ⟨0⟩) ∧
      c.Server = some (newServerService c.commonBase.New) ∧
      c.VcsRoots = some (newVcsRootService c.commonBase.New ⟨0⟩) :=
  construction_builds_root_template "u" "p" "http://localhost:8112" ⟨0⟩
    (by decide)

/-- C5: after every successful construction the `Parameters` default
service is `nil`; parameter services exist only in identifier-scoped
form, built per call with the parent's locator in their path prefix. -/
theorem parameters_only_identifier_scoped (u p a : String)
    (h : HTTPClient) (ha : a ≠ "") :
    ∃ c, NewWithAddress u p a h = .ok c ∧ c.Parameters = none ∧
      (∀ id, (c.ProjectParameterService id).base.rawURL =
        c.commonBase.rawURL ++ ("projects/" ++ LocatorID id ++ "/")) ∧
      (∀ id, (c.BuildTypeParameterService id).base.rawURL =
        c.commonBase.rawURL ++ ("buildTypes/" ++ LocatorID id ++ "/")) := by
  simp only [NewWithAddress, if_neg ha, newClientInstance]
  exact ⟨_, rfl, rfl, fun id => rfl, fun id => rfl⟩

/-- C5 witness: concrete construction leaves `Parameters` unset while
scoped parameter services carry the locator path. -/
theorem parameters_only_identifier_scoped_witness :
    ∃ c, NewWithAddress "u" "p" "http://localhost:8112" ⟨0⟩ = .ok c ∧
      c.Parameters = none ∧
      (∀ id, (c.ProjectParameterService id).base.rawURL =
        c.commonBase.rawURL ++ ("projects/" ++ LocatorID id ++ "/")) ∧
      (∀ id, (c.BuildTypeParameterService id).base.rawURL =
        c.commonBase.rawURL ++ ("buildTypes/" ++ LocatorID id ++ "/")) :=
  parameters_only_identifier_scoped "u" "p" "http://localhost:8112" ⟨0⟩
    (by decide)

/-- C6: for distinct identifiers the two scoped parameter services
derived from the same Client are never equal, each one's path prefix
contains the locator of its own identifier, and neither path coincides
with the root template's (deriving is a pure clone-and-append, so no
path state of one instance can reach the other or the root). -/
theorem scoped_services_never_interfere (c : Client) (id1 id2 : String)
    (hne : id1 ≠ id2) :
    c.ProjectParameterService id1 ≠ c.ProjectParameterService id2 ∧
    ContainsStr (c.ProjectParameterService id1).base.rawURL (LocatorID id1) ∧
    ContainsStr (c.ProjectParameterService id2).base.rawURL (LocatorID id2) ∧
    c.BuildTypeParameterService id1 ≠ c.BuildTypeParameterService id2 ∧
    ContainsStr (c.BuildTypeParameterService id1).base.rawURL (LocatorID id1) ∧
    ContainsStr (c.BuildTypeParameterService id2).base.rawURL (LocatorID id2) ∧
    (c.ProjectParameterService id1).base.rawURL ≠ c.commonBase.rawURL ∧
    (c.BuildTypeParameterService id1).base.rawURL ≠ c.commonBase.rawURL := by
  refine ⟨?_, ?_, ?_, ?_, ?_, ?_, ?_, ?_⟩
  · intro heq
    exact hne (scoped_path_inj (congrArg (fun s => s.base.rawURL) heq))
  · exact ⟨c.commonBase.rawURL ++ "projects/", "/", by
      simp [Client.ProjectParameterService, Sling.path, Sling.New, LocatorID,
        string_append_assoc]⟩
  · exact ⟨c.commonBase.rawURL ++ "projects/", "/", by
      simp [Client.ProjectParameterService, Sling.path, Sling.New, LocatorID,
        string_append_assoc]⟩
  · intro heq
    exact hne (scoped_path_inj (congrArg (fun s => s.base.rawURL) heq))
  · exact ⟨c.commonBase.rawURL ++ "buildTypes/", "/", by
      simp [Client.BuildTypeParameterService, Sling.path, Sling.New, LocatorID,
        string_append_assoc]⟩
  · exact ⟨c.commonBase.rawURL ++ "buildTypes/", "/", by
      simp [Client.BuildTypeParameterService, Sling.path, Sling.New, LocatorID,
        string_append_assoc]⟩
  · exact string_append_ne_self (string_append_slash_ne_empty _)
  · exact string_append_ne_self (string_append_slash_ne_empty _)

/-- C6 witness: identifiers `"proj1"` and `"proj2"` on a concrete
client. -/
theorem scoped_services_never_interfere_witness :
    testClient.ProjectParameterService "proj1" ≠
      testClient.ProjectParameterService "proj2" ∧
    ContainsStr (testClient.ProjectParameterService "proj1").base.rawURL
      (LocatorID "proj1") ∧
    ContainsStr (testClient.ProjectParameterService "proj2").base.rawURL
      (LocatorID "proj2") ∧
    testClient.BuildTypeParameterService "proj1" ≠
      testClient.BuildTypeParameterService "proj2" ∧
    ContainsStr (testClient.BuildTypeParameterService "proj1").base.rawURL
      (LocatorID "proj1") ∧
    ContainsStr (testClient.BuildTypeParameterService "proj2").base.rawURL
      (LocatorID "proj2") ∧
    (testClient.ProjectParameterService "proj1").base.rawURL ≠
      testClient.commonBase.rawURL ∧
    (testClient.BuildTypeParameterService "proj1").base.rawURL ≠
      testClient.commonBase.rawURL :=
  scoped_services_never_interfere testClient "proj1" "proj2" (by decide)

/-- C7: both tracing flags start off, and they gate independently: with
only the request flag on exactly the request dump reaches the sink,
with only the response flag on exactly the response dump does, and with
both off a round trip produces no sink output at all. -/
theorem tracing_flags_default_off_and_gate_independently
    (dumpRequest dumpResponse : Except String String) :
    DebugRequests = false ∧ DebugResponses = false ∧
    traceRoundTrip true false dumpRequest dumpResponse =
      (debug dumpRequest, []) ∧
    traceRoundTrip false true dumpRequest dumpResponse =
      ([], debug dumpResponse) ∧
    traceRoundTrip false false dumpRequest dumpResponse = ([], []) :=
  ⟨rfl, rfl, rfl, rfl, rfl⟩

/-- C8: a failed dump serialization is reported to the warning-level
sink and never surfaces to the caller; the response delivered by the
traced round trip is exactly the transport's response, independent of
which dump serializers are used or whether they fail. -/
theorem dump_failure_never_surfaces (debugRequests debugResponses : Bool)
    (dumpReq dumpResp : String → Except String String)
    (transport : String → String) (request e : String) :
    (tracedRoundTrip debugRequests debugResponses dumpReq dumpResp
        transport request).1 = transport request ∧
    debug (.error e) = [.warnLog ("[ERROR] " ++ e ++ "\n\n")] ∧
    (∀ dumpReq2 dumpResp2,
      (tracedRoundTrip debugRequests debugResponses dumpReq2 dumpResp2
          transport request).1 =
        (tracedRoundTrip debugRequests debugResponses dumpReq dumpResp
            transport request).1) :=
  ⟨rfl, rfl, fun _ _ => rfl⟩

/-- C9: `RetryTimeout` is dead state: two clients identical except for
`RetryTimeout` derive the same services, build the same validation
request, and get the same `Validate` outcome on every exchange. -/
theorem retryTimeout_not_wired (c : Client) (t1 t2 : Nat) :
    (∀ id, ({ c with RetryTimeout := t1 } : Client).ProjectParameterService id =
      ({ c with RetryTimeout := t2 } : Client).ProjectParameterService id) ∧
    (∀ id, ({ c with RetryTimeout := t1 } : Client).BuildTypeParameterService id =
      ({ c with RetryTimeout := t2 } : Client).BuildTypeParameterService id) ∧
    (∀ id, ({ c with RetryTimeout := t1 } : Client).AgentRequirementService id =
      ({ c with RetryTimeout := t2 } : Client).AgentRequirementService id) ∧
    (∀ id, ({ c with RetryTimeout := t1 } : Client).BuildFeatureService id =
      ({ c with RetryTimeout := t2 } : Client).BuildFeatureService id) ∧
    (∀ id, ({ c with RetryTimeout := t1 } : Client).DependencyService id =
      ({ c with RetryTimeout := t2 } : Client).DependencyService id) ∧
    (∀ id, ({ c with RetryTimeout := t1 } : Client).TriggerService id =
      ({ c with RetryTimeout := t2 } : Client).TriggerService id) ∧
    ({ c with RetryTimeout := t1 } : Client).validateRequest =
      ({ c with RetryTimeout := t2 } : Client).validateRequest ∧
    (∀ exchange, ({ c with RetryTimeout := t1 } : Client).Validate exchange =
      ({ c with RetryTimeout := t2 } : Client).Validate exchange) :=
  ⟨fun _ => rfl, fun _ => rfl, fun _ => rfl, fun _ => rfl, fun _ => rfl,
   fun _ => rfl, rfl, fun _ => rfl⟩

/-- C10: `ContentType` is the constant `text/plain; charset=utf-8`; for
a string payload `s`, `Body` returns a reader over exactly `s` with a
nil error; for any non-string payload the unchecked type assertion
fails, so `Body` is total only under the string-payload precondition. -/
theorem textPlainBodyProvider_body (p : textPlainBodyProvider) :
    p.ContentType = "text/plain; charset=utf-8" ∧
    (∀ s, p.payload = .str s → p.Body = some (s, none)) ∧
    ((∀ s, p.payload ≠ .str s) → p.Body = none) := by
  refine ⟨rfl, fun s hs => by simp [textPlainBodyProvider.Body, hs], fun h => ?_⟩
  cases hp : p.payload with
  | str s => exact absurd hp (h s)
  | intVal n => simp [textPlainBodyProvider.Body, hp]
  | nilVal => simp [textPlainBodyProvider.Body, hp]

/-- C10 witness: a string payload `"boom"` and a non-string payload. -/
theorem textPlainBodyProvider_body_witness :
    (textPlainBodyProvider.mk (.str "boom")).Body = some ("boom", none) ∧
    (textPlainBodyProvider.mk (.intVal 7)).Body = none :=
  ⟨(textPlainBodyProvider_body ⟨.str "boom"⟩).2.1 "boom" rfl,
   (textPlainBodyProvider_body ⟨.intVal 7⟩).2.2 (fun s h => by cases h)⟩

end Teamcity
